import Mathlib

/-!
Verification of the audio-playback subsystem of the kokoro-tts-mcp-server
repository (`enhanced_audio_handler.py`, class `PurePythonAudioHandler`).

The Python code is shallowly embedded as follows:

* `Backend` enumerates the five playback mechanisms that appear in the
  dispatcher, in the priority order of `play_audio_file`'s four method
  blocks followed by the winsound emergency fallback.
* `Env` packages the capability snapshot built in `__init__`
  (`_audio_libraries`, `_windows_audio_devices`, `platform.system()`)
  together with oracles for the outcome of each backend's start attempt
  and of each diagnostic liveness check.  These oracles stand for the
  host environment: whether the `try:` block of a method raises before
  the daemon thread is started, and whether a library's self-test in
  `test_audio_system` raises.
* Files are byte lists plus a (lower-cased) extension; directory
  listings are lists of entries with a modification time.  Modification
  times are modelled as naturals (only their ordering is ever used).
* Each operation returns, next to the structured result dictionary, a
  trace of the backends whose playback path was actually entered, so
  that "backend b was (not) attempted" is statable.
-/

namespace KokoroAudio

/-- The playback mechanisms of `play_audio_file`, in its priority order:
Method 1 sounddevice, Method 2 pygame, Method 3 simpleaudio,
Method 4 pydub, then the Windows-only winsound emergency fallback. -/
inductive Backend
  | sounddevice
  | pygame
  | simpleaudio
  | pydub
  | winsound
deriving DecidableEq, Repr

/-- The capability snapshot built in `PurePythonAudioHandler.__init__`
plus environment oracles for the backend calls.

* `is_windows` — `platform.system() == "Windows"`.
* `avail b` — for the four libraries, `self._audio_libraries[b]`
  (set by `_detect_available_libraries`); for `winsound`, the flag
  `self._windows_audio_devices["winsound_available"]`
  (set by `_detect_windows_audio_devices`; the re-`import winsound`
  inside `_windows_winsound_fallback` succeeds exactly when this probe
  succeeded).
* `has_output_devices` — `self._windows_audio_devices["available_devices"]`
  is non-empty.
* `device_count` — `len(sd.query_devices())`, used only in a diagnostic
  message of `test_audio_system`.
* `start_ok b` — whether backend `b`'s start attempt inside
  `play_audio_file` completes without raising (for sounddevice this
  covers the scipy import, `wavfile.read` and the thread start; a scipy
  `ImportError` and any other exception both fall through identically).
* `check_ok b` / `check_err b` — whether the liveness check of
  `test_audio_system` for library `b` passes, and the text of the
  exception when it fails. -/
structure Env where
  is_windows : Bool
  avail : Backend → Bool
  has_output_devices : Bool
  device_count : Nat
  start_ok : Backend → Bool
  check_ok : Backend → Bool
  check_err : Backend → String

/-- Consistency of a snapshot actually built by `__init__` on a stable
host: on Windows, `_detect_available_libraries` marks sounddevice
available only when `sd.query_devices()` reported at least one output
device, and `_detect_windows_audio_devices` fills `available_devices`
from the same query, so a construction-time snapshot satisfies this
implication. -/
def Env.WellFormed (env : Env) : Prop :=
  env.is_windows = true → env.avail .sounddevice = true →
    env.has_output_devices = true

/-- An audio file: its name, its lower-cased suffix
(`file_path.suffix.lower()`), and its content as a byte list
(`size_bytes` is the length, the header is the first 12 bytes). -/
structure AudioFile where
  name : String
  ext : String
  content : List Nat
deriving DecidableEq, Repr

/-- The report built by `_verify_audio_format`. -/
structure FormatInfo where
  valid : Bool
  format : String
  size_bytes : Nat
  recommendations : List String
deriving DecidableEq, Repr

/-- `supported_formats` in `_verify_audio_format`. -/
def supported_formats : List String := [".wav", ".mp3", ".ogg", ".m4a", ".flac"]

/-- The bytes of `b'RIFF'`. -/
def riff_magic : List Nat := [82, 73, 70, 70]

/-- The bytes of `b'WAVE'`. -/
def wave_magic : List Nat := [87, 65, 86, 69]

/-- The bytes of `b'ID3'`. -/
def id3_magic : List Nat := [73, 68, 51]

/-- The bytes of `b'\xff\xfb'` (MPEG frame sync). -/
def mp3_sync : List Nat := [255, 251]

/-- `_verify_audio_format` (lines 267-317): extension whitelist, then
minimum-size check, then magic-byte check of the first 12 bytes for
`.wav` / first 2-3 bytes for `.mp3`; other supported extensions are
accepted without byte-level verification.  The file is assumed to
exist (the caller checks existence first), so `stat` and the header
read cannot fail in the model. -/
def verify_audio_format (f : AudioFile) : FormatInfo :=
  let fmt := f.ext
  let sz := f.content.length
  if !(supported_formats.contains fmt) then
    { valid := false, format := fmt, size_bytes := sz,
      recommendations :=
        ["Unsupported format " ++ fmt ++ ". Convert to WAV for best compatibility."] }
  else if sz < 100 then
    { valid := false, format := fmt, size_bytes := sz,
      recommendations := ["File too small, may be corrupted or empty."] }
  else
    let header := f.content.take 12
    if fmt = ".wav" then
      if header.take 4 = riff_magic ∧ (header.drop 8).take 4 = wave_magic then
        { valid := true, format := fmt, size_bytes := sz, recommendations := [] }
      else
        { valid := false, format := fmt, size_bytes := sz,
          recommendations := ["Invalid WAV file header."] }
    else if fmt = ".mp3" then
      if header.take 3 = id3_magic ∨ header.take 2 = mp3_sync then
        { valid := true, format := fmt, size_bytes := sz, recommendations := [] }
      else
        { valid := false, format := fmt, size_bytes := sz,
          recommendations := ["Invalid MP3 file header."] }
    else
      { valid := true, format := fmt, size_bytes := sz, recommendations := [] }

/-- `needle` is an initial segment of `hay` (Python `s.startswith`). -/
def starts_with : List Char → List Char → Bool
  | [], _ => true
  | _ :: _, [] => false
  | a :: as, b :: bs => a == b && starts_with as bs

/-- Python's substring test `needle in hay`. -/
def has_substr (needle : List Char) : List Char → Bool
  | [] => starts_with needle []
  | c :: rest => starts_with needle (c :: rest) || has_substr needle rest

/-- `needle in hay` on strings. -/
def str_contains (hay needle : String) : Bool :=
  has_substr needle.data hay.data

/-- The structured diagnostic returned by `_handle_windows_mci_error`. -/
structure MCIDiag where
  error_type : String
  error_code : Option String
  description : String
  solutions : List String
deriving DecidableEq, Repr

/-- The keys of the `mci_solutions` table, in dict insertion order
(the order the `for code in mci_solutions.keys()` loop scans them). -/
def mci_codes : List String := ["263", "259", "277"]

/-- The `description` entries of the `mci_solutions` table. -/
def mci_description : String → String
  | "263" => "The specified device is not open or is not recognized by MCI"
  | "259" => "The driver cannot recognize the specified command parameter"
  | "277" => "The file format is invalid"
  | _ => ""

/-- The `solutions` entries of the `mci_solutions` table. -/
def mci_solutions : String → List String
  | "263" =>
    ["Update audio drivers",
     "Try running as administrator",
     "Use alternative audio library (sounddevice/pygame)",
     "Check Windows audio service is running"]
  | "259" =>
    ["Convert audio to WAV format",
     "Check audio file is not corrupted",
     "Try different audio library"]
  | "277" =>
    ["Convert to WAV format",
     "Check file is not corrupted",
     "Use pydub for format conversion"]
  | _ => []

/-- `_handle_windows_mci_error` (lines 319-372): scan the fixed table
keys in order, first substring match wins; no match yields the
"Unknown MCI Error" diagnostic with the generic remediation list. -/
def handle_windows_mci_error (error_msg : String) : MCIDiag :=
  match mci_codes.find? (fun code => str_contains error_msg code) with
  | some code =>
    { error_type := "MCI Error", error_code := some code,
      description := mci_description code, solutions := mci_solutions code }
  | none =>
    { error_type := "Unknown MCI Error", error_code := none,
      description := error_msg,
      solutions :=
        ["Try alternative audio library",
         "Check audio drivers",
         "Convert to WAV format"] }

/-- A result dictionary of `play_audio_file` / `_windows_winsound_fallback`.
A key absent from the Python dict is `none` / `[]` here.  The purely
informational numeric fields of success results (`file_path`,
`sample_rate`, `duration_seconds`) and the `windows_devices` echo of the
exhausted response are not modelled; no claim mentions them. -/
structure PlayResult where
  success : Bool
  message : Option String := none
  method : Option Backend := none
  error : Option String := none
  recommendations : List String := []
  recommendation : Option String := none
  available_libraries : Option (List (Backend × Bool)) := none
deriving DecidableEq, Repr

/-- The printable name of a backend as used in result messages. -/
def backend_name : Backend → String
  | .sounddevice => "sounddevice"
  | .pygame => "pygame"
  | .simpleaudio => "simpleaudio"
  | .pydub => "pydub"
  | .winsound => "winsound"

/-- The success dictionary returned by each of the four ordered method
blocks once the daemon playback thread has been started. -/
def method_success (b : Backend) (f : AudioFile) : PlayResult :=
  { success := true,
    message := some ("Playing audio file with " ++ backend_name b ++ ": " ++ f.name),
    method := some b }

/-- `self._audio_libraries` as a key/value list, in the dict insertion
order of `_detect_available_libraries` (pygame, sounddevice, pydub,
simpleaudio). -/
def avail_map (env : Env) : List (Backend × Bool) :=
  [(.pygame, env.avail .pygame), (.sounddevice, env.avail .sounddevice),
   (.pydub, env.avail .pydub), (.simpleaudio, env.avail .simpleaudio)]

/-- The generic recommendations of the exhausted response (lines 639-643). -/
def exhausted_base_recs : List String :=
  ["Install missing audio libraries: pip install pygame sounddevice pydub simpleaudio scipy",
   "Check if audio file format is supported (WAV recommended)",
   "Verify system audio is working with other applications"]

/-- The Windows-specific recommendations appended to the exhausted
response (lines 649-655). -/
def exhausted_windows_recs : List String :=
  ["Try running as administrator",
   "Update Windows audio drivers",
   "Check Windows Audio service is running",
   "Convert audio file to WAV format for better compatibility",
   "Restart Windows Audio service: services.msc -> Windows Audio -> Restart"]

/-- The "All audio playback methods failed" response (lines 634-657). -/
def exhausted_response (env : Env) : PlayResult :=
  { success := false,
    error := some "All audio playback methods failed",
    available_libraries := some (avail_map env),
    recommendations :=
      exhausted_base_recs ++ (if env.is_windows then exhausted_windows_recs else []) }

/-- The failure returned by the Windows pre-flight device check
(lines 431-440) when neither output devices nor winsound were detected
at construction time. -/
def no_device_failure : PlayResult :=
  { success := false,
    error := some "No Windows audio devices detected",
    recommendations :=
      ["Check audio drivers are installed",
       "Verify Windows audio service is running",
       "Try running as administrator"] }

/-- `_windows_winsound_fallback` (lines 374-411).  Also returns the
trace of actual playback invocations: `[.winsound]` exactly when
`winsound.PlaySound` is reached (on its daemon thread).  The
`import winsound` inside the function succeeds iff the construction
probe recorded winsound as available. -/
def winsound_fallback (env : Env) (f : AudioFile) : PlayResult × List Backend :=
  if !env.is_windows then
    ({ success := false, error := some "winsound only available on Windows" }, [])
  else if !env.avail .winsound then
    ({ success := false, error := some "winsound not available" }, [])
  else if f.ext ≠ ".wav" then
    ({ success := false,
       error := some "winsound only supports WAV files",
       recommendation := some "Convert to WAV format first" }, [])
  else
    ({ success := true,
       message := some ("Playing with Windows winsound (emergency fallback): " ++ f.name),
       method := some .winsound }, [.winsound])

/-- The four ordered method blocks of `play_audio_file`, in priority
order. -/
def method_order : List Backend := [.sounddevice, .pygame, .simpleaudio, .pydub]

/-- The sequential fallback loop of `play_audio_file` (lines 442-619):
each of the four method blocks is guarded by its availability flag
(`self._audio_libraries.get(name, False)`); an entered block whose start
attempt succeeds returns its success dictionary at once, an entered
block whose start attempt raises falls through to the next block (the
Windows-specific MCI classification along the way is logging only and
does not change the result).  The returned list records which blocks
were entered, in order. -/
def try_ordered_methods (env : Env) (f : AudioFile) : List Backend → Option PlayResult × List Backend
  | [] => (none, [])
  | b :: rest =>
    if env.avail b then
      if env.start_ok b then
        (some (method_success b f), [b])
      else
        let r := try_ordered_methods env f rest
        (r.1, b :: r.2)
    else
      try_ordered_methods env f rest

/-- `play_audio_file` (lines 413-665).  `file_exists` models
`file_path.exists()`.  The Windows pre-flight format validation
(line 425) only logs a warning and never changes control flow, so it
does not appear in the result.  The second component traces the
backends whose playback path was entered: the ordered method blocks
that ran, followed by `.winsound` when the emergency fallback reached
`winsound.PlaySound`. -/
def play_audio_file (env : Env) (file_exists : Bool) (f : AudioFile) :
    PlayResult × List Backend :=
  if !file_exists then
    ({ success := false, error := some ("File not found: " ++ f.name) }, [])
  else if env.is_windows && !env.has_output_devices && !env.avail .winsound then
    (no_device_failure, [])
  else
    let m := try_ordered_methods env f method_order
    match m.1 with
    | some r => (r, m.2)
    | none =>
      if env.is_windows && env.avail .winsound then
        let w := winsound_fallback env f
        if w.1.success then (w.1, m.2 ++ w.2)
        else (exhausted_response env, m.2 ++ w.2)
      else
        (exhausted_response env, m.2)

/-- An entry of the output directory, as seen by `Path.iterdir`:
name, lower-cased suffix, byte size, `st_mtime` (only its ordering
matters, so it is a natural here), and whether it is a regular file. -/
structure DirEntry where
  name : String
  ext : String
  size_bytes : Nat
  mtime : Nat
  is_file : Bool
deriving DecidableEq, Repr

/-- One element of the `files` list built by `list_audio_files`
(the float `size_kb` display value is derived from `size_bytes` and is
not modelled separately). -/
structure AudioFileInfo where
  filename : String
  format : String
  size_bytes : Nat
  modified_time : Nat
deriving DecidableEq, Repr

/-- `audio_extensions` in `list_audio_files`. -/
def audio_extensions : List String := [".mp3", ".wav", ".ogg", ".m4a", ".flac", ".aac"]

/-- The filter of the `iterdir` loop: regular file with an audio
extension. -/
def is_audio_entry (e : DirEntry) : Bool :=
  e.is_file && audio_extensions.contains e.ext

/-- The metadata record built for one matching entry. -/
def entry_info (e : DirEntry) : AudioFileInfo :=
  { filename := e.name, format := e.ext, size_bytes := e.size_bytes,
    modified_time := e.mtime }

/-- The comparison of `audio_files.sort(key=lambda x: x["modified_time"],
reverse=True)`: a stable sort that puts larger modification times first. -/
def mtime_ge (a b : AudioFileInfo) : Prop :=
  b.modified_time ≤ a.modified_time

instance : DecidableRel mtime_ge := fun a b =>
  Nat.decLe b.modified_time a.modified_time

/-- The result of `list_audio_files`. -/
structure ListFilesResult where
  success : Bool
  count : Nat
  files : List AudioFileInfo
deriving DecidableEq, Repr

/-- `list_audio_files` (lines 704-732): filter the directory to regular
files with audio extensions, collect their metadata, and stable-sort by
modification time, newest first (Python's stable sort is modelled by
insertion sort, which is extensionally equal to it). -/
def list_audio_files (dir : List DirEntry) : ListFilesResult :=
  let audio_files := (dir.filter is_audio_entry).map entry_info
  let sorted := audio_files.insertionSort mtime_ge
  { success := true, count := sorted.length, files := sorted }

/-- The result of `test_audio_system`. -/
structure TestResult where
  success : Bool
  library_tests : List (Backend × String)
  recommendations : List String
deriving DecidableEq, Repr

/-- The iteration order of `for lib_name, available in
self._audio_libraries.items()`: dict insertion order of
`_detect_available_libraries`. -/
def lib_order : List Backend := [.pygame, .sounddevice, .pydub, .simpleaudio]

/-- The per-library success message recorded by `test_audio_system`. -/
def lib_pass_message (env : Env) : Backend → String
  | .pygame => "✅ Initialized successfully"
  | .sounddevice => "✅ Found " ++ toString env.device_count ++ " audio devices"
  | .pydub => "✅ Available for audio processing"
  | .simpleaudio => "✅ Available for WAV playback"
  | .winsound => ""

/-- The per-library failure message recorded by `test_audio_system`. -/
def lib_fail_message (env : Env) (b : Backend) : String :=
  "❌ Error: " ++ env.check_err b

/-- One iteration of the `test_audio_system` loop: an available library
gets its liveness check (recorded pass or fail, a failure clearing the
aggregate `success` flag), an unavailable one is recorded as not
installed without being initialized.  The accumulator carries the
aggregate success flag, the `library_tests` entries, and the trace of
libraries whose check was actually attempted. -/
def lib_test_step (env : Env) (acc : Bool × List (Backend × String) × List Backend)
    (b : Backend) : Bool × List (Backend × String) × List Backend :=
  if env.avail b then
    if env.check_ok b then
      (acc.1, acc.2.1 ++ [(b, lib_pass_message env b)], acc.2.2 ++ [b])
    else
      (false, acc.2.1 ++ [(b, lib_fail_message env b)], acc.2.2 ++ [b])
  else
    (acc.1, acc.2.1 ++ [(b, "❌ Not installed")], acc.2.2)

/-- The loop of `test_audio_system` (lines 744-771) over the libraries
in snapshot order. -/
def run_library_tests (env : Env) : Bool × List (Backend × String) × List Backend :=
  lib_order.foldl (lib_test_step env) (true, [], [])

/-- The recommendation appended when no library at all is available. -/
def install_rec : String :=
  "Install audio libraries: pip install pygame sounddevice pydub simpleaudio scipy"

/-- The recommendation appended when sounddevice is unavailable. -/
def sounddevice_rec : String :=
  "Install sounddevice for best cross-platform support: pip install sounddevice scipy"

/-- `test_audio_system` (lines 734-788): run the per-library checks,
then fail outright (with an install recommendation) when no library is
available, and recommend sounddevice when it is missing.  The second
component is the trace of libraries whose check was attempted. -/
def test_audio_system (env : Env) : TestResult × List Backend :=
  let r := run_library_tests env
  let any_avail := lib_order.any (fun b => env.avail b)
  let final_success := if !any_avail then false else r.1
  let recs1 := if !any_avail then [install_rec] else []
  let recs2 :=
    if !(env.avail .sounddevice) then recs1 ++ [sounddevice_rec] else recs1
  ({ success := final_success, library_tests := r.2.1, recommendations := recs2 },
   r.2.2)

/-! ### Concrete sample inputs for witnesses and counterexamples -/

/-- A 100-byte `.wav` file with a correct RIFF/WAVE header. -/
def sample_wav : AudioFile :=
  { name := "speech.wav", ext := ".wav",
    content := [82, 73, 70, 70, 1, 2, 3, 4, 87, 65, 86, 69] ++ List.replicate 88 0 }

/-- A 200-byte `.mp3` file (content irrelevant to the dispatcher). -/
def sample_mp3 : AudioFile :=
  { name := "speech.mp3", ext := ".mp3", content := List.replicate 200 0 }

/-- A 12-byte `.wav` file whose whole content is a correct
RIFF????WAVE header but which is below the 100-byte minimum. -/
def tiny_riff_wav : AudioFile :=
  { name := "tiny.wav", ext := ".wav",
    content := [82, 73, 70, 70, 0, 0, 0, 0, 87, 65, 86, 69] }

/-- A snapshot with no library available at all (non-Windows host). -/
def env_none : Env :=
  { is_windows := false, avail := fun _ => false, has_output_devices := false,
    device_count := 0, start_ok := fun _ => false, check_ok := fun _ => false,
    check_err := fun _ => "" }

/-- A Windows snapshot with every ordered library unavailable, no
output devices and no winsound. -/
def env_windows_dead : Env :=
  { is_windows := true, avail := fun _ => false, has_output_devices := false,
    device_count := 0, start_ok := fun _ => false, check_ok := fun _ => false,
    check_err := fun _ => "" }

/-- A Windows snapshot where only winsound is available. -/
def env_windows_winsound : Env :=
  { is_windows := true,
    avail := fun b => match b with | .winsound => true | _ => false,
    has_output_devices := false, device_count := 0,
    start_ok := fun _ => false, check_ok := fun _ => false,
    check_err := fun _ => "" }

/-- A non-Windows snapshot where sounddevice and pygame are available
but only pygame's start attempt succeeds. -/
def env_fallback : Env :=
  { is_windows := false,
    avail := fun b => match b with
      | .sounddevice => true | .pygame => true | _ => false,
    has_output_devices := true, device_count := 1,
    start_ok := fun b => match b with | .pygame => true | _ => false,
    check_ok := fun _ => true, check_err := fun _ => "" }

/-- A Windows snapshot whose construction probe found no output devices
and no winsound, yet (inconsistently with the same-host probe) marks
every library available — used to show the pre-flight check bypasses
even available backends. -/
def env_windows_nodev_all_avail : Env :=
  { is_windows := true,
    avail := fun b => match b with | .winsound => false | _ => true,
    has_output_devices := false, device_count := 0,
    start_ok := fun _ => true, check_ok := fun _ => true,
    check_err := fun _ => "" }

/-! ### Helper lemmas about the dispatcher -/

/-- Every backend in the trace of the ordered-method loop was marked
available. -/
theorem avail_of_mem_try_trace (env : Env) (f : AudioFile) (l : List Backend)
    (b : Backend) (hb : b ∈ (try_ordered_methods env f l).2) :
    env.avail b = true := by
  induction l with
  | nil => simp [try_ordered_methods] at hb
  | cons c rest ih =>
    by_cases hc : env.avail c = true
    · by_cases hs : env.start_ok c = true
      · simp [try_ordered_methods, hc, hs] at hb
        exact hb ▸ hc
      · simp only [try_ordered_methods, hc, if_true] at hb
        rw [if_neg (by simp [hs])] at hb
        simp only [List.mem_cons] at hb
        rcases hb with hb | hb
        · exact hb ▸ hc
        · exact ih hb
    · simp only [try_ordered_methods] at hb
      rw [if_neg hc] at hb
      exact ih hb

/-- A success returned by the ordered-method loop has `success = true`
and names a backend of the list as its method. -/
theorem try_trace_success (env : Env) (f : AudioFile) (l : List Backend)
    (r : PlayResult) (h : (try_ordered_methods env f l).1 = some r) :
    r.success = true := by
  induction l with
  | nil => simp [try_ordered_methods] at h
  | cons c rest ih =>
    by_cases hc : env.avail c = true
    · by_cases hs : env.start_ok c = true
      · simp [try_ordered_methods, hc, hs] at h
        rw [← h]
        rfl
      · simp only [try_ordered_methods, hc, if_true] at h
        rw [if_neg (by simp [hs])] at h
        exact ih h
    · simp only [try_ordered_methods] at h
      rw [if_neg hc] at h
      exact ih h

/-- The emergency fallback records a playback invocation only for
winsound, and only when winsound was marked available. -/
theorem winsound_trace_spec (env : Env) (f : AudioFile) (b : Backend)
    (hb : b ∈ (winsound_fallback env f).2) :
    b = .winsound ∧ env.avail .winsound = true := by
  unfold winsound_fallback at hb
  split_ifs at hb with h1 h2 h3
  · simp at hb
  · simp at hb
  · simp at hb
  · simp at hb
    refine ⟨hb, ?_⟩
    simpa using h2

/-- When every ordered library is unavailable the loop returns no
result and an empty trace. -/
theorem try_ordered_methods_all_unavail (env : Env) (f : AudioFile)
    (h1 : env.avail .sounddevice = false) (h2 : env.avail .pygame = false)
    (h3 : env.avail .simpleaudio = false) (h4 : env.avail .pydub = false) :
    try_ordered_methods env f method_order = (none, []) := by
  simp [try_ordered_methods, method_order, h1, h2, h3, h4]

/-! ### Claim theorems -/

/-- C5: for every existing file with a supported extension whose size is
below the 100-byte minimum, `_verify_audio_format` reports
`valid = false` regardless of the header content. -/
theorem small_file_invalid (f : AudioFile)
    (hfmt : supported_formats.contains f.ext = true)
    (hsz : f.content.length < 100) :
    (verify_audio_format f).valid = false := by
  have hmem : f.ext ∈ supported_formats := by simpa using hfmt
  simp [verify_audio_format, hfmt, hsz, hmem]

/-- Witness for C5 at a concrete 10-byte `.wav` file. -/
theorem small_file_invalid_witness :
    (verify_audio_format { name := "t.wav", ext := ".wav",
                           content := List.replicate 10 0 }).valid = false :=
  small_file_invalid _ (by decide) (by decide)

/-- C4 counterexample: a 12-byte `.wav` file whose first 12 bytes are
exactly RIFF????WAVE is reported `valid = false` (the size check fires
before the header check), refuting the claim that every such file gets
`valid = true`. -/
theorem wav_header_small_counterexample :
    tiny_riff_wav.ext = ".wav" ∧
    tiny_riff_wav.content.take 4 = riff_magic ∧
    (tiny_riff_wav.content.drop 8).take 4 = wave_magic ∧
    (verify_audio_format tiny_riff_wav).valid = false := by
  decide

/-- C4 (amended with the minimum-size condition): for every existing
`.wav` file of at least 100 bytes whose first 12 bytes are
RIFF????WAVE, `_verify_audio_format` reports `valid = true`. -/
theorem wav_header_valid (f : AudioFile) (b4 b5 b6 b7 : Nat)
    (hext : f.ext = ".wav")
    (hlen : 100 ≤ f.content.length)
    (hhdr : f.content.take 12 = [82, 73, 70, 70, b4, b5, b6, b7, 87, 65, 86, 69]) :
    (verify_audio_format f).valid = true := by
  have hfmt : supported_formats.contains f.ext = true := by
    rw [hext]; decide
  have hsz : ¬ f.content.length < 100 := Nat.not_lt.mpr hlen
  have hmem : f.ext ∈ supported_formats := by rw [hext]; decide
  simp [verify_audio_format, hfmt, hsz, hext, hhdr, hmem, riff_magic, wave_magic,
    supported_formats]

/-- Witness for the amended C4 at a concrete 100-byte file. -/
theorem wav_header_valid_witness :
    (verify_audio_format sample_wav).valid = true :=
  wav_header_valid sample_wav 1 2 3 4 (by decide) (by decide) (by decide)

/-- C6: `_handle_windows_mci_error` classifies
"error 263: device busy" as the MCI 263 diagnostic with its fixed
description and four-element solutions list, and as a pure function it
returns the same diagnostic on every repeated call with the same
input. -/
theorem mci_classifier_263 :
    handle_windows_mci_error "error 263: device busy" =
      { error_type := "MCI Error", error_code := some "263",
        description := "The specified device is not open or is not recognized by MCI",
        solutions :=
          ["Update audio drivers",
           "Try running as administrator",
           "Use alternative audio library (sounddevice/pygame)",
           "Check Windows audio service is running"] } ∧
    ∀ s : String, handle_windows_mci_error s = handle_windows_mci_error s := by
  exact ⟨by decide, fun _ => rfl⟩

/-- C1: on a construction-consistent snapshot, if sounddevice is
available but its start attempt raises while pygame is available and
starts successfully, `play_audio_file` on an existing file returns
success with method pygame, having attempted exactly sounddevice then
pygame — simpleaudio, pydub and winsound are never attempted, and the
dispatcher returns immediately after the first successful start. -/
theorem dispatcher_falls_back_to_second (env : Env) (f : AudioFile)
    (hwf : env.WellFormed)
    (h1 : env.avail .sounddevice = true)
    (h2 : env.start_ok .sounddevice = false)
    (h3 : env.avail .pygame = true)
    (h4 : env.start_ok .pygame = true) :
    (play_audio_file env true f).1.success = true ∧
    (play_audio_file env true f).1.method = some .pygame ∧
    (play_audio_file env true f).2 = [.sounddevice, .pygame] ∧
    Backend.simpleaudio ∉ (play_audio_file env true f).2 ∧
    Backend.pydub ∉ (play_audio_file env true f).2 ∧
    Backend.winsound ∉ (play_audio_file env true f).2 := by
  have hpre : (env.is_windows && !env.has_output_devices && !env.avail .winsound) = false := by
    cases hw : env.is_windows
    · simp
    · simp [hwf hw h1]
  simp [play_audio_file, hpre, try_ordered_methods, method_order, h1, h2, h3, h4,
    method_success]

/-- Witness for C1 at a concrete snapshot and file. -/
theorem dispatcher_falls_back_to_second_witness :
    (play_audio_file env_fallback true sample_wav).1.success = true ∧
    (play_audio_file env_fallback true sample_wav).1.method = some .pygame ∧
    (play_audio_file env_fallback true sample_wav).2 = [.sounddevice, .pygame] ∧
    Backend.simpleaudio ∉ (play_audio_file env_fallback true sample_wav).2 ∧
    Backend.pydub ∉ (play_audio_file env_fallback true sample_wav).2 ∧
    Backend.winsound ∉ (play_audio_file env_fallback true sample_wav).2 :=
  dispatcher_falls_back_to_second env_fallback sample_wav
    (fun _ _ => rfl) rfl rfl rfl rfl

/-- Every backend in the trace of `play_audio_file` was marked
available in the snapshot. -/
theorem play_trace_avail (env : Env) (ex : Bool) (f : AudioFile)
    (b : Backend) (hb : b ∈ (play_audio_file env ex f).2) :
    env.avail b = true := by
  simp only [play_audio_file] at hb
  by_cases hex : (!ex) = true
  · rw [if_pos hex] at hb
    simp at hb
  · rw [if_neg hex] at hb
    by_cases hpre :
        (env.is_windows && !env.has_output_devices && !env.avail .winsound) = true
    · rw [if_pos hpre] at hb
      simp at hb
    · rw [if_neg hpre] at hb
      rcases hm : try_ordered_methods env f method_order with ⟨o, tr⟩
      rw [hm] at hb
      have htr : ∀ c, c ∈ tr → env.avail c = true := by
        intro c hc
        exact avail_of_mem_try_trace env f method_order c (by rw [hm]; exact hc)
      cases o with
      | some r =>
        exact htr b hb
      | none =>
        by_cases hw : (env.is_windows && env.avail .winsound) = true
        · rw [if_pos hw] at hb
          by_cases hs : (winsound_fallback env f).1.success = true
          · rw [if_pos hs] at hb
            simp only [List.mem_append] at hb
            rcases hb with hb | hb
            · exact htr b hb
            · exact (winsound_trace_spec env f b hb).2 ▸
                ((winsound_trace_spec env f b hb).1 ▸ rfl)
          · rw [if_neg hs] at hb
            simp only [List.mem_append] at hb
            rcases hb with hb | hb
            · exact htr b hb
            · rcases winsound_trace_spec env f b hb with ⟨hbw, hav⟩
              rw [hbw]
              exact hav
        · rw [if_neg hw] at hb
          exact htr b hb

/-- C2: a backend marked unavailable in the construction-time snapshot
is never attempted by `play_audio_file`: its playback path is not
entered on any input, so it does not appear in the attempt trace. -/
theorem unavailable_backend_never_attempted (env : Env) (ex : Bool)
    (f : AudioFile) (b : Backend) (h : env.avail b = false) :
    b ∉ (play_audio_file env ex f).2 := by
  intro hb
  have := play_trace_avail env ex f b hb
  rw [h] at this
  exact Bool.false_ne_true this

/-- Witness for C2: with no library available, pygame is not attempted. -/
theorem unavailable_backend_never_attempted_witness :
    Backend.pygame ∉ (play_audio_file env_none true sample_wav).2 :=
  unavailable_backend_never_attempted env_none true sample_wav .pygame rfl

/-- C10: on a Windows host whose startup probe found neither output
devices nor winsound, `play_audio_file` on an existing file fails with
"No Windows audio devices detected" and a non-empty recommendations
list before attempting any backend, even backends marked available. -/
theorem windows_no_device_preflight (env : Env) (f : AudioFile)
    (hw : env.is_windows = true)
    (hd : env.has_output_devices = false)
    (hws : env.avail .winsound = false) :
    (play_audio_file env true f).1.success = false ∧
    (play_audio_file env true f).1.error = some "No Windows audio devices detected" ∧
    (play_audio_file env true f).1.recommendations =
      ["Check audio drivers are installed",
       "Verify Windows audio service is running",
       "Try running as administrator"] ∧
    (play_audio_file env true f).2 = [] := by
  simp [play_audio_file, hw, hd, hws, no_device_failure]

/-- Witness for C10 at a snapshot that (inconsistently) marks all four
ordered libraries available: they are still bypassed. -/
theorem windows_no_device_preflight_witness :
    env_windows_nodev_all_avail.avail .sounddevice = true ∧
    ((play_audio_file env_windows_nodev_all_avail true sample_wav).1.success = false ∧
     (play_audio_file env_windows_nodev_all_avail true sample_wav).1.error =
       some "No Windows audio devices detected" ∧
     (play_audio_file env_windows_nodev_all_avail true sample_wav).1.recommendations =
       ["Check audio drivers are installed",
        "Verify Windows audio service is running",
        "Try running as administrator"] ∧
     (play_audio_file env_windows_nodev_all_avail true sample_wav).2 = []) :=
  ⟨rfl, windows_no_device_preflight env_windows_nodev_all_avail sample_wav rfl rfl rfl⟩

/-- Branch equation: the Windows pre-flight failure. -/
theorem play_eq_preflight (env : Env) (f : AudioFile)
    (hpre : (env.is_windows && !env.has_output_devices &&
             !env.avail .winsound) = true) :
    play_audio_file env true f = (no_device_failure, []) := by
  simp [play_audio_file, hpre]

/-- Branch equation: some ordered method started successfully. -/
theorem play_eq_of_try_some (env : Env) (f : AudioFile) (r : PlayResult)
    (tr : List Backend)
    (hm : try_ordered_methods env f method_order = (some r, tr))
    (hpre : ¬ (env.is_windows && !env.has_output_devices &&
               !env.avail .winsound) = true) :
    play_audio_file env true f = (r, tr) := by
  simp [play_audio_file, hpre, hm]

/-- Branch equation: all ordered methods failed and the emergency
fallback is not reachable. -/
theorem play_eq_no_winsound (env : Env) (f : AudioFile) (tr : List Backend)
    (hm : try_ordered_methods env f method_order = (none, tr))
    (hpre : ¬ (env.is_windows && !env.has_output_devices &&
               !env.avail .winsound) = true)
    (hw : ¬ (env.is_windows && env.avail .winsound) = true) :
    play_audio_file env true f = (exhausted_response env, tr) := by
  simp [play_audio_file, hpre, hm, hw]

/-- Branch equation: all ordered methods failed and the emergency
fallback succeeded. -/
theorem play_eq_winsound_success (env : Env) (f : AudioFile) (tr : List Backend)
    (hm : try_ordered_methods env f method_order = (none, tr))
    (hpre : ¬ (env.is_windows && !env.has_output_devices &&
               !env.avail .winsound) = true)
    (hw : (env.is_windows && env.avail .winsound) = true)
    (hs : (winsound_fallback env f).1.success = true) :
    play_audio_file env true f =
      ((winsound_fallback env f).1, tr ++ (winsound_fallback env f).2) := by
  simp [play_audio_file, hpre, hm, hw, hs]

/-- Branch equation: all ordered methods failed and the emergency
fallback also failed. -/
theorem play_eq_winsound_fail (env : Env) (f : AudioFile) (tr : List Backend)
    (hm : try_ordered_methods env f method_order = (none, tr))
    (hpre : ¬ (env.is_windows && !env.has_output_devices &&
               !env.avail .winsound) = true)
    (hw : (env.is_windows && env.avail .winsound) = true)
    (hs : ¬ (winsound_fallback env f).1.success = true) :
    play_audio_file env true f =
      (exhausted_response env, tr ++ (winsound_fallback env f).2) := by
  simp [play_audio_file, hpre, hm, hw, hs]

/-- C3 counterexample, refuting the claim as stated at two concrete
inputs with every ordered backend unavailable: (a) on Windows with
winsound available, an existing `.wav` file yields `success = true`
(the emergency fallback rescues the call), not a failure; (b) on
Windows with neither devices nor winsound, the returned failure is the
pre-flight "no devices" response, which carries no per-backend
availability map. -/
theorem all_unavailable_counterexample :
    (∀ b, b ∈ method_order → env_windows_winsound.avail b = false) ∧
    (play_audio_file env_windows_winsound true sample_wav).1.success = true ∧
    (∀ b, b ∈ method_order → env_windows_dead.avail b = false) ∧
    (play_audio_file env_windows_dead true sample_mp3).1.success = false ∧
    (play_audio_file env_windows_dead true sample_mp3).1.available_libraries = none := by
  refine ⟨by decide, rfl, by decide, rfl, rfl⟩

/-- C3 (amended): with every ordered backend unavailable and an
existing file, `play_audio_file` returns the exhausted failure carrying
the per-backend availability map and a non-empty recommendations list,
except in two cases the original claim does not carve out: on Windows
with winsound available and a `.wav` file the emergency fallback is
invoked exactly once and succeeds, and on Windows with neither output
devices nor winsound the pre-flight failure (non-empty recommendations
but no availability map) is returned instead; for a `.mp3` file the
emergency `PlaySound` call is skipped entirely and the exhausted
failure is returned. -/
theorem all_unavailable_exhausted (env : Env) (f : AudioFile)
    (h1 : env.avail .sounddevice = false) (h2 : env.avail .pygame = false)
    (h3 : env.avail .simpleaudio = false) (h4 : env.avail .pydub = false) :
    (¬(env.is_windows = true ∧ env.has_output_devices = false ∧
        env.avail .winsound = false) →
     ¬(env.is_windows = true ∧ env.avail .winsound = true ∧ f.ext = ".wav") →
       (play_audio_file env true f).1.success = false ∧
       (play_audio_file env true f).1.error =
         some "All audio playback methods failed" ∧
       (play_audio_file env true f).1.available_libraries = some (avail_map env) ∧
       (play_audio_file env true f).1.recommendations ≠ []) ∧
    (env.is_windows = true → env.avail .winsound = true → f.ext = ".wav" →
       (play_audio_file env true f).1.success = true ∧
       (play_audio_file env true f).1.method = some .winsound ∧
       (play_audio_file env true f).2 = [.winsound]) ∧
    (env.is_windows = true → env.avail .winsound = true → f.ext = ".mp3" →
       (play_audio_file env true f).1.success = false ∧
       (play_audio_file env true f).2 = [] ∧
       (play_audio_file env true f).1.available_libraries = some (avail_map env) ∧
       (play_audio_file env true f).1.recommendations ≠ []) ∧
    (env.is_windows = true → env.has_output_devices = false →
     env.avail .winsound = false →
       (play_audio_file env true f).1.success = false ∧
       (play_audio_file env true f).1.available_libraries = none ∧
       (play_audio_file env true f).1.recommendations ≠ [] ∧
       (play_audio_file env true f).2 = []) := by
  have htry := try_ordered_methods_all_unavail env f h1 h2 h3 h4
  refine ⟨?_, ?_, ?_, ?_⟩
  · intro hn1 hn2
    cases hw : env.is_windows
    · simp [play_audio_file, hw, htry, exhausted_response, exhausted_base_recs]
    · cases hws : env.avail .winsound
      · have hd : env.has_output_devices = true := by
          cases hdd : env.has_output_devices
          · exact absurd ⟨hw, hdd, hws⟩ hn1
          · rfl
        simp [play_audio_file, hw, hws, hd, htry, exhausted_response,
          exhausted_base_recs]
      · have hext : f.ext ≠ ".wav" := fun hx => hn2 ⟨hw, hws, hx⟩
        simp [play_audio_file, hw, hws, htry, winsound_fallback, hext,
          exhausted_response, exhausted_base_recs]
  · intro hw hws hext
    simp [play_audio_file, hw, hws, hext, htry, winsound_fallback]
  · intro hw hws hext
    have hne : f.ext ≠ ".wav" := by rw [hext]; decide
    simp [play_audio_file, hw, hws, htry, winsound_fallback, hne,
      exhausted_response, exhausted_base_recs]
  · intro hw hd hws
    simp [play_audio_file, hw, hd, hws, no_device_failure]

/-- Witness for the amended C3: the `.wav` emergency-success branch at
a concrete snapshot. -/
theorem all_unavailable_exhausted_witness :
    (play_audio_file env_windows_winsound true sample_wav).1.success = true ∧
    (play_audio_file env_windows_winsound true sample_wav).1.method = some .winsound ∧
    (play_audio_file env_windows_winsound true sample_wav).2 = [.winsound] :=
  (all_unavailable_exhausted env_windows_winsound sample_wav rfl rfl rfl rfl).2.1
    rfl rfl rfl

/-- C7 counterexample: for a non-existing path, `play_audio_file`
returns a failure with an empty recommendations list (the "File not
found" response carries only an error string), refuting the claim for
every failure result. -/
theorem failure_recommendations_counterexample :
    (play_audio_file env_fallback false sample_wav).1.success = false ∧
    (play_audio_file env_fallback false sample_wav).1.recommendations = [] ∧
    (play_audio_file env_fallback false sample_wav).1.recommendation = none :=
  ⟨rfl, rfl, rfl⟩

/-- C7 (amended to failures on existing files): every failure
`play_audio_file` returns for an existing input file carries a
non-empty recommendations list, and its error field is one of the two
fixed classifier-independent summary strings — never a raw
backend-library error message. -/
theorem failure_has_recommendations (env : Env) (ex : Bool) (f : AudioFile)
    (hex : ex = true)
    (hfail : (play_audio_file env ex f).1.success = false) :
    (play_audio_file env ex f).1.recommendations ≠ [] ∧
    ((play_audio_file env ex f).1.error =
       some "No Windows audio devices detected" ∨
     (play_audio_file env ex f).1.error =
       some "All audio playback methods failed") := by
  subst hex
  by_cases hpre :
      (env.is_windows && !env.has_output_devices && !env.avail .winsound) = true
  · rw [play_eq_preflight env f hpre]
    simp [no_device_failure]
  · rcases hm : try_ordered_methods env f method_order with ⟨o, tr⟩
    cases o with
    | some r =>
      rw [play_eq_of_try_some env f r tr hm hpre] at hfail
      have hr := try_trace_success env f method_order r (by rw [hm])
      rw [hr] at hfail
      exact absurd hfail (by decide)
    | none =>
      by_cases hw : (env.is_windows && env.avail .winsound) = true
      · by_cases hs : (winsound_fallback env f).1.success = true
        · rw [play_eq_winsound_success env f tr hm hpre hw hs] at hfail
          rw [hs] at hfail
          exact absurd hfail (by decide)
        · rw [play_eq_winsound_fail env f tr hm hpre hw hs]
          simp [exhausted_response, exhausted_base_recs]
      · rw [play_eq_no_winsound env f tr hm hpre hw]
        simp [exhausted_response, exhausted_base_recs]

/-- Witness for the amended C7 at a concrete exhausted failure. -/
theorem failure_has_recommendations_witness :
    (play_audio_file env_none true sample_wav).1.recommendations ≠ [] ∧
    ((play_audio_file env_none true sample_wav).1.error =
       some "No Windows audio devices detected" ∨
     (play_audio_file env_none true sample_wav).1.error =
       some "All audio playback methods failed") :=
  failure_has_recommendations env_none true sample_wav rfl rfl

/-- A sample output directory: three audio files with pairwise distinct
modification times plus a non-audio file. -/
def dir_sample : List DirEntry :=
  [{ name := "b.wav", ext := ".wav", size_bytes := 200, mtime := 20, is_file := true },
   { name := "a.mp3", ext := ".mp3", size_bytes := 300, mtime := 10, is_file := true },
   { name := "notes.txt", ext := ".txt", size_bytes := 5, mtime := 99, is_file := true },
   { name := "c.ogg", ext := ".ogg", size_bytes := 400, mtime := 30, is_file := true }]

/-- C8: on a directory whose audio files are exactly three entries with
modification times t1 < t2 < t3 (in any iteration order),
`list_audio_files` succeeds and returns them newest first. -/
theorem list_files_newest_first (dir : List DirEntry) (e1 e2 e3 : DirEntry)
    (h12 : e1.mtime < e2.mtime) (h23 : e2.mtime < e3.mtime)
    (hdir : dir.filter is_audio_entry = [e1, e2, e3] ∨
            dir.filter is_audio_entry = [e1, e3, e2] ∨
            dir.filter is_audio_entry = [e2, e1, e3] ∨
            dir.filter is_audio_entry = [e2, e3, e1] ∨
            dir.filter is_audio_entry = [e3, e1, e2] ∨
            dir.filter is_audio_entry = [e3, e2, e1]) :
    (list_audio_files dir).success = true ∧
    (list_audio_files dir).files =
      [entry_info e3, entry_info e2, entry_info e1] := by
  have p12 : e1.mtime ≤ e2.mtime := Nat.le_of_lt h12
  have p13 : e1.mtime ≤ e3.mtime := Nat.le_of_lt (Nat.lt_trans h12 h23)
  have p23 : e2.mtime ≤ e3.mtime := Nat.le_of_lt h23
  have n21 : ¬ e2.mtime ≤ e1.mtime := Nat.not_le.mpr h12
  have n31 : ¬ e3.mtime ≤ e1.mtime := Nat.not_le.mpr (Nat.lt_trans h12 h23)
  have n32 : ¬ e3.mtime ≤ e2.mtime := Nat.not_le.mpr h23
  rcases hdir with h | h | h | h | h | h <;>
    simp [list_audio_files, h, List.insertionSort, List.orderedInsert, mtime_ge,
      entry_info, p12, p13, p23, n21, n31, n32]

/-- Witness for C8 at a concrete directory listing. -/
theorem list_files_newest_first_witness :
    (list_audio_files dir_sample).success = true ∧
    (list_audio_files dir_sample).files =
      [entry_info { name := "c.ogg", ext := ".ogg", size_bytes := 400,
                    mtime := 30, is_file := true },
       entry_info { name := "b.wav", ext := ".wav", size_bytes := 200,
                    mtime := 20, is_file := true },
       entry_info { name := "a.mp3", ext := ".mp3", size_bytes := 300,
                    mtime := 10, is_file := true }] :=
  list_files_newest_first dir_sample
    { name := "a.mp3", ext := ".mp3", size_bytes := 300, mtime := 10, is_file := true }
    { name := "b.wav", ext := ".wav", size_bytes := 200, mtime := 20, is_file := true }
    { name := "c.ogg", ext := ".ogg", size_bytes := 400, mtime := 30, is_file := true }
    (by decide) (by decide) (by decide)

/-- The `library_tests` entry the loop records for library `b`. -/
def lib_test_entry (env : Env) (b : Backend) : Backend × String :=
  (b, if env.avail b then
        (if env.check_ok b then lib_pass_message env b else lib_fail_message env b)
      else "❌ Not installed")

/-- The aggregate success flag of the test loop: the accumulator flag
conjoined with "every available library passed its check". -/
theorem lib_tests_fold_success (env : Env) (l : List Backend)
    (acc : Bool × List (Backend × String) × List Backend) :
    (l.foldl (lib_test_step env) acc).1 =
      (acc.1 && l.all (fun b => !env.avail b || env.check_ok b)) := by
  induction l generalizing acc with
  | nil => simp
  | cons c rest ih =>
    by_cases hc : env.avail c = true
    · by_cases hck : env.check_ok c = true
      · simp [lib_test_step, hc, hck, ih]
      · rw [Bool.not_eq_true] at hck
        simp [lib_test_step, hc, hck, ih]
    · rw [Bool.not_eq_true] at hc
      simp [lib_test_step, hc, ih]

/-- The attempted-check trace of the test loop: exactly the available
libraries, in order. -/
theorem lib_tests_fold_trace (env : Env) (l : List Backend)
    (acc : Bool × List (Backend × String) × List Backend) :
    (l.foldl (lib_test_step env) acc).2.2 =
      acc.2.2 ++ l.filter (fun b => env.avail b) := by
  induction l generalizing acc with
  | nil => simp
  | cons c rest ih =>
    by_cases hc : env.avail c = true
    · by_cases hck : env.check_ok c = true <;>
        simp [lib_test_step, hc, hck, ih, List.filter_cons, List.append_assoc]
    · rw [Bool.not_eq_true] at hc
      simp [lib_test_step, hc, ih, List.filter_cons]

/-- The `library_tests` list of the test loop: one entry per library in
order. -/
theorem lib_tests_fold_entries (env : Env) (l : List Backend)
    (acc : Bool × List (Backend × String) × List Backend) :
    (l.foldl (lib_test_step env) acc).2.1 =
      acc.2.1 ++ l.map (lib_test_entry env) := by
  induction l generalizing acc with
  | nil => simp
  | cons c rest ih =>
    by_cases hc : env.avail c = true
    · by_cases hck : env.check_ok c = true <;>
        simp [lib_test_step, lib_test_entry, hc, hck, ih, List.append_assoc]
    · simp [lib_test_step, lib_test_entry, hc, ih, List.append_assoc]

/-- C9: the diagnostics report of `test_audio_system` has overall
success exactly when every check attempted on an available library
passed and at least one library is available; with zero libraries
available it always fails and recommends installing audio libraries;
and an unavailable library is recorded as not installed without its
check being attempted. -/
theorem test_audio_system_spec (env : Env) :
    ((test_audio_system env).1.success =
      (lib_order.all (fun b => !env.avail b || env.check_ok b) &&
       lib_order.any (fun b => env.avail b))) ∧
    ((∀ b, b ∈ lib_order → env.avail b = false) →
      (test_audio_system env).1.success = false ∧
      install_rec ∈ (test_audio_system env).1.recommendations) ∧
    (∀ b, b ∈ lib_order → env.avail b = false →
      b ∉ (test_audio_system env).2 ∧
      (b, "❌ Not installed") ∈ (test_audio_system env).1.library_tests) := by
  have hsucc := lib_tests_fold_success env lib_order (true, [], [])
  have htr := lib_tests_fold_trace env lib_order (true, [], [])
  have htests := lib_tests_fold_entries env lib_order (true, [], [])
  refine ⟨?_, ?_, ?_⟩
  · cases hany : lib_order.any (fun b => env.avail b) <;>
      simp [test_audio_system, run_library_tests, hsucc, hany]
  · intro hall
    have hany : lib_order.any (fun b => env.avail b) = false := by
      simp only [List.any_eq_false]
      intro b hb
      simp [hall b hb]
    constructor
    · simp [test_audio_system, run_library_tests, hsucc, hany]
    · have hsd := hall .sounddevice (by simp [lib_order])
      simp [test_audio_system, hany, hsd]
  · intro b hb hav
    constructor
    · simp only [test_audio_system, run_library_tests, htr, List.nil_append]
      intro hmem
      have := List.of_mem_filter hmem
      rw [hav] at this
      exact Bool.false_ne_true this
    · simp only [test_audio_system, run_library_tests, htests, List.nil_append]
      exact List.mem_map.mpr ⟨b, hb, by simp [lib_test_entry, hav]⟩

/-- Witness for C9: with zero libraries available the report fails and
recommends installing audio libraries. -/
theorem test_audio_system_spec_witness :
    (test_audio_system env_none).1.success = false ∧
    install_rec ∈ (test_audio_system env_none).1.recommendations :=
  (test_audio_system_spec env_none).2.1 (by decide)

end KokoroAudio
